import Mathlib

/-!
Shallow embedding of the foods-tool-ui view models:
the `FoodsComponent` search/selection/metadata view model
(`foods.component.ts`), the `ImageUploadComponent` upload widget
(`image-upload.component.ts`) and the `YehApiService` facade
(`yeh-api.service.ts`).  JavaScript numbers are modelled as rationals,
`string | null` and optional fields as `Option`, and the asynchronous
HTTP layer as explicit request values plus a response oracle passed to
each operation.
-/

namespace FoodsTool

/-- JavaScript `Math.round(x)`: round half up, i.e. the floor of `x + 1/2`. -/
def jsRound (q : ℚ) : ℚ := (Int.floor (q + 1/2) : ℚ)

/-- `Math.round(x * 10) / 10`, the one-decimal rounding used by `getNutrients`. -/
def round1 (q : ℚ) : ℚ := (Int.floor (q * 10 + 1/2) : ℚ) / 10

/-- JavaScript `x || 1` on an optional number: `undefined` and `0` are falsy
and yield the fallback `1`. -/
def jsOrOne : Option ℚ → ℚ
  | some v => if v = 0 then 1 else v
  | none => 1

/-- JavaScript `s || fallback` on a string: the empty string is falsy. -/
def jsOrStr (s fallback : String) : String :=
  if s = "" then fallback else s

/-- Decide whether `pat` occurs as a contiguous sublist of the second list
(JavaScript `String.prototype.includes` on the character lists). -/
def subListOccurs (pat : List Char) : List Char → Bool
  | [] => pat.isEmpty
  | a :: as => pat.isPrefixOf (a :: as) || subListOccurs pat as

/-- JavaScript `s.includes(pat)`. -/
def jsIncludes (s pat : String) : Bool := subListOccurs pat.toList s.toList

/-- JavaScript `s.toLowerCase()` (ASCII lowering, as used on food descriptions). -/
def lowerStr (s : String) : String := String.mk (s.toList.map Char.toLower)

/-- JavaScript `t.startsWith prefixStr`. -/
def strStartsWith (t prefixStr : String) : Bool :=
  prefixStr.toList.isPrefixOf t.toList

/-! ## Data model (`food.model.ts`)

The TypeScript interfaces declare the nutrition fields as `number`, but the
component guards every read with `typeof nf.x === 'number'`, so the faithful
runtime model makes each field optional. -/

/-- `NutritionFacts` from `food.model.ts`; every numeric field is optional at
runtime (the component checks `typeof`). -/
structure NutritionFacts where
  foodName : Option String := none
  calories : Option ℚ := none
  totalFatG : Option ℚ := none
  saturatedFatG : Option ℚ := none
  transFatG : Option ℚ := none
  cholesterolMG : Option ℚ := none
  sodiumMG : Option ℚ := none
  totalCarbohydrateG : Option ℚ := none
  dietaryFiberG : Option ℚ := none
  totalSugarsG : Option ℚ := none
  addedSugarsG : Option ℚ := none
  proteinG : Option ℚ := none
  vitaminDMcg : Option ℚ := none
  calciumMG : Option ℚ := none
  ironMG : Option ℚ := none
  potassiumMG : Option ℚ := none
  servingSizeHousehold : Option String := none
  servingSizeG : Option ℚ := none
  servingsPerContainer : Option ℚ := none
  deriving DecidableEq

/-- `BrandInfo` from `food.model.ts`. -/
structure BrandInfo where
  nutritionSiteCandidates : Option (List String) := none
  productImageSiteCandidates : Option (List String) := none
  deriving DecidableEq

/-- `Food` from `food.model.ts`.  `id` is the numeric SQL FoodID; JavaScript
treats `0` as falsy in the guards `!food.id` and `!this.selectedFood?.id`. -/
structure Food where
  id : Nat
  description : Option String := none
  shortDescription : Option String := none
  glycemicIndex : Option ℚ := none
  glycemicLoad : Option ℚ := none
  nutritionFacts : Option NutritionFacts := none
  servingSizeMultiplicand : Option ℚ := none
  brandInfo : Option BrandInfo := none
  nutritionFactsImage : Option String := none
  foodImage : Option String := none
  foodImageThumbnail : Option String := none
  nutritionFactsStatus : Option String := none
  deriving DecidableEq

/-- A row of the nutrient table (`SimplifiedNutrient` in `foods.component.ts`). -/
structure SimplifiedNutrient where
  label : String
  value : ℚ
  unit : String
  deriving DecidableEq

/-- The three metadata form values (`string | null`, `number | null`), used both
for the live form controls and for the `originalMetadata` snapshot. -/
structure MetadataState where
  shortDescription : Option String
  glycemicIndex : Option ℚ
  glycemicLoad : Option ℚ
  deriving DecidableEq

/-- The all-null metadata state set by `clearMetadataFields`. -/
def emptyMetadata : MetadataState := ⟨none, none, none⟩

/-- `populateMetadataFields`: both the form controls and the
`originalMetadata` snapshot are set to the food's values (`?? null`). -/
def metadataOf (f : Food) : MetadataState :=
  ⟨f.shortDescription, f.glycemicIndex, f.glycemicLoad⟩

/-- `FoodMetadataUpdate` from `food.model.ts` as a partial object: an outer
`none` means the key is absent from the update; `some none` is an explicit
JSON `null`. -/
structure FoodMetadataUpdate where
  shortDescription : Option (Option String) := none
  glycemicIndex : Option (Option ℚ) := none
  glycemicLoad : Option (Option ℚ) := none
  deriving DecidableEq

/-! ## Nutrient display computation (`getNutrients`) -/

/-- `FoodsComponent.getNutrients` (`foods.component.ts` lines 343-395).
Source values are per-100g; when `showPerServing` is set the multiplier is
`food.servingSizeMultiplicand || 1` (so an absent or zero multiplicand falls
back to `1`), else `1`.  Entries are pushed in the fixed order Protein, Fat,
Carbs, Calories, each guarded by a `typeof` presence check; gram values go
through `Math.round(v * m * 10) / 10` and calories through `Math.round`. -/
def getNutrients (showPerServing : Bool) (food : Option Food) : List SimplifiedNutrient :=
  match food with
  | none => []
  | some f =>
    match f.nutritionFacts with
    | none => []
    | some nf =>
      let multiplier := if showPerServing then jsOrOne f.servingSizeMultiplicand else 1
      let n0 : List SimplifiedNutrient := []
      let n1 := match nf.proteinG with
        | some p => n0 ++ [⟨"Protein", round1 (p * multiplier), "g"⟩]
        | none => n0
      let n2 := match nf.totalFatG with
        | some v => n1 ++ [⟨"Fat", round1 (v * multiplier), "g"⟩]
        | none => n1
      let n3 := match nf.totalCarbohydrateG with
        | some v => n2 ++ [⟨"Carbs", round1 (v * multiplier), "g"⟩]
        | none => n2
      let n4 := match nf.calories with
        | some c => n3 ++ [⟨"Calories", jsRound (c * multiplier), "kcal"⟩]
        | none => n3
      n4

/-! ## Search/detail component state (`foods.component.ts`) -/

/-- The mutable fields of `FoodsComponent` that the embedded operations read
or write.  `searchQuery`, `limitValue` and `yehApproved` are the form-control
values (nullable in Angular); `selectedIndex` is a JavaScript number that the
code sets to `-1` when nothing is focused, hence `Int`. -/
structure ComponentState where
  searchQuery : Option String := some ""
  limitValue : Option ℚ := some 50
  yehApproved : Option Bool := some false
  foods : List Food := []
  selectedFood : Option Food := none
  selectedIndex : Int := 0
  selectedFoodIds : Finset Nat := ∅
  isLoading : Bool := false
  showPerServing : Bool := true
  nutrientTable : List SimplifiedNutrient := []
  form : MetadataState := emptyMetadata
  originalMetadata : MetadataState := emptyMetadata
  deriving DecidableEq

/-- The field initializers of `FoodsComponent`: empty query control, limit
control `50`, YEH-approved control `false`, no results, `selectedIndex = 0`. -/
def initialComponentState : ComponentState := {}

/-- The `MAX_LIMIT` constant of `FoodsComponent`. -/
def MAX_LIMIT : ℚ := 200

/-- `FoodsComponent.setMaxLimit`: sets the limit control to `MAX_LIMIT`. -/
def setMaxLimit (s : ComponentState) : ComponentState :=
  { s with limitValue := some MAX_LIMIT }

/-- `this.searchControl.value?.trim() || ''`. -/
def trimQuery (s : ComponentState) : String :=
  match s.searchQuery with
  | some q => q.trim
  | none => ""

/-- `HttpErrorResponse` as read by `handleError`: the numeric `status`,
`statusText`, `message`, and the optional `error.error?.message` body field. -/
structure HttpErrorResponse where
  status : Int
  statusText : String := ""
  message : String := ""
  bodyMessage : Option String := none
  deriving DecidableEq

/-- `FoodsComponent.handleError`: picks the toast message by status class.
`error.error?.message || fallback` treats an absent or empty body message as
falsy. -/
def handleErrorMessage (context : String) (e : HttpErrorResponse) : String :=
  if e.status = 0 then "Unable to connect to server. Please check your connection."
  else if e.status = 404 then "Food not found. Try a different search term."
  else if e.status = 500 then "Server error occurred. Please try again later."
  else if 400 ≤ e.status ∧ e.status < 500 then
    match e.bodyMessage with
    | some m => jsOrStr m ("Request failed: " ++ e.statusText)
    | none => "Request failed: " ++ e.statusText
  else if 500 ≤ e.status then "Server error. Our team has been notified."
  else context ++ ": " ++ e.message

/-- The three raw shapes `performSearch` normalizes: `{count, foods}`, a bare
array, or a single object. -/
inductive SearchRawResponse where
  | countAndFoods (count : ℚ) (foods : List Food)
  | bare (foods : List Food)
  | single (food : Food)
  deriving DecidableEq

/-- The normalization in `performSearch`: extract `results.foods` when it is
an array, keep a bare array, wrap a single object. -/
def normalizeResults : SearchRawResponse → List Food
  | .countAndFoods _ fs => fs
  | .bare fs => fs
  | .single f => [f]

/-- Outcome of the one backend call `performSearch` subscribes to. -/
inductive SearchOutcome where
  | success (raw : SearchRawResponse)
  | failure (e : HttpErrorResponse)
  deriving DecidableEq

/-- Requests issued through `YehApiService` by the search component. -/
inductive FoodsRequest where
  | search (query : String) (limit : Option ℚ)
  | yehApproved (limit : Option ℚ)
  deriving DecidableEq

/-- The limit query parameter carried by a search request. -/
def requestLimit : FoodsRequest → Option ℚ
  | .search _ l => l
  | .yehApproved l => l

/-- The client-side filter applied when YEH-approved search is combined with
a non-empty query: case-insensitive substring match on `description` (an
absent description is falsy and filtered out). -/
def filterByQuery (query : String) (arr : List Food) : List Food :=
  arr.filter fun f =>
    match f.description with
    | some d => jsIncludes (lowerStr d) (lowerStr query)
    | none => false

/-- The snackbar message shown after a successful search with `n` results. -/
def searchSuccessNote (n : Nat) : String :=
  if n = 0 then "No foods found. Count: " ++ toString n
  else "Foods returned: " ++ toString n

/-- The state mutation performed by the success callback of `performSearch`
on the normalized, filtered result array `arr`: store the results, overwrite
the limit control with the returned count, and auto-select index 0 (or clear
the detail pane, metadata form and nutrient table when empty, setting the
focused index to `-1`). -/
def applySearchResults (s : ComponentState) (arr : List Food) : ComponentState :=
  let s1 := { s with foods := arr, limitValue := some (arr.length : ℚ), isLoading := false }
  match arr with
  | f :: _ =>
    { s1 with
        selectedIndex := 0
        selectedFood := some f
        form := metadataOf f
        originalMetadata := metadataOf f
        nutrientTable := getNutrients s.showPerServing (some f) }
  | [] =>
    { s1 with
        selectedFood := none
        selectedIndex := -1
        form := emptyMetadata
        originalMetadata := emptyMetadata
        nutrientTable := [] }

/-- `FoodsComponent.performSearch` (`foods.component.ts` lines 72-162),
returning the new state, the backend requests issued, and the snackbar
messages shown.  The guard returns without any network call when the
YEH-approved box is unchecked and the trimmed query is shorter than 2
characters.  On success the results are normalized, optionally filtered
client-side (YEH-approved with a non-empty query), and applied through
`applySearchResults`.  On failure `foods` and `selectedFood` are cleared
and `handleError` picks the toast message, but `selectedIndex` is left
untouched. -/
def performSearch (s : ComponentState) (outcome : SearchOutcome) :
    ComponentState × List FoodsRequest × List String :=
  let query := trimQuery s
  let isYeh := s.yehApproved = some true
  let limit := s.limitValue.getD 50
  if ¬ isYeh ∧ query.length < 2 then (s, [], [])
  else
    let req := if isYeh then FoodsRequest.yehApproved (some limit)
      else FoodsRequest.search query (some limit)
    match outcome with
    | .success raw =>
      let arr0 := normalizeResults raw
      let arr := if isYeh ∧ query ≠ "" then filterByQuery query arr0 else arr0
      (applySearchResults s arr, [req], [searchSuccessNote arr.length])
    | .failure e =>
      ({ s with isLoading := false, foods := [], selectedFood := none }, [req],
        [handleErrorMessage "Failed to search foods" e])

/-- `FoodsComponent.onFoodSelected`: in-range indices set the focus and
repopulate the metadata snapshot and nutrient table; out-of-range calls are
no-ops. -/
def onFoodSelected (s : ComponentState) (index : Int) : ComponentState :=
  if 0 ≤ index ∧ index < (s.foods.length : Int) then
    match s.foods[index.toNat]? with
    | some f =>
      { s with
          selectedIndex := index
          selectedFood := some f
          form := metadataOf f
          originalMetadata := metadataOf f
          nutrientTable := getNutrients s.showPerServing (some f) }
    | none => s
  else s

/-- `FoodsComponent.onListKeydown` (`foods.component.ts` lines 285-300):
ArrowDown clamps to `length - 1`, ArrowUp clamps to `0`, and the selection
handler runs only when the computed index differs from the current one. -/
def onListKeydown (s : ComponentState) (key : String) : ComponentState :=
  if key = "ArrowDown" then
    let newIndex := min (s.selectedIndex + 1) ((s.foods.length : Int) - 1)
    if newIndex ≠ s.selectedIndex then onFoodSelected s newIndex else s
  else if key = "ArrowUp" then
    let newIndex := max (s.selectedIndex - 1) 0
    if newIndex ≠ s.selectedIndex then onFoodSelected s newIndex else s
  else s

/-! ## Metadata save (`saveMetadata`) -/

/-- What one invocation of `saveMetadata` does before any response arrives:
either a snackbar-only early return, or one `PATCH /foods/{id}` call carrying
the partial update. -/
inductive SaveResult where
  | noFood (note : String)
  | noChanges (note : String)
  | network (id : Nat) (update : FoodMetadataUpdate)
  deriving DecidableEq

/-- `FoodsComponent.saveMetadata` (`foods.component.ts` lines 219-251) up to
the point the request is issued.  The guard `!this.selectedFood?.id` rejects
a missing food and a zero id.  Each field is added to the update exactly when
its form value differs from the `originalMetadata` snapshot; an empty-string
short description is translated to an explicit `null`.  When the update has
no keys the component shows "No changes to save" and performs no call. -/
def saveMetadata (selectedFood : Option Food) (form original : MetadataState) : SaveResult :=
  match selectedFood with
  | none => .noFood "No food selected"
  | some f =>
    if f.id = 0 then .noFood "No food selected"
    else
      let update : FoodMetadataUpdate :=
        { shortDescription :=
            if form.shortDescription ≠ original.shortDescription then
              some (if form.shortDescription = some "" then none else form.shortDescription)
            else none
          glycemicIndex :=
            if form.glycemicIndex ≠ original.glycemicIndex then some form.glycemicIndex
            else none
          glycemicLoad :=
            if form.glycemicLoad ≠ original.glycemicLoad then some form.glycemicLoad
            else none }
      if update.shortDescription = none ∧ update.glycemicIndex = none ∧
          update.glycemicLoad = none then
        .noChanges "No changes to save"
      else .network f.id update

/-! ## Multi-select (`foods.component.ts` lines 535-603) -/

/-- `FoodsComponent.toggleFoodSelection`: a food without a valid (truthy) id
is ignored; otherwise membership of its id in the selected set is flipped. -/
def toggleFoodSelection (ids : Finset Nat) (food : Food) : Finset Nat :=
  if food.id = 0 then ids
  else if food.id ∈ ids then ids.erase food.id
  else insert food.id ids

/-- `FoodsComponent.isFoodSelected`. -/
def isFoodSelected (ids : Finset Nat) (food : Food) : Bool :=
  if food.id = 0 then false else food.id ∈ ids

/-- `FoodsComponent.selectAllFoods`: adds every truthy id of the current
result list to the selected set. -/
def selectAllFoods (ids : Finset Nat) (foods : List Food) : Finset Nat :=
  foods.foldl (fun acc f => if f.id = 0 then acc else insert f.id acc) ids

/-- `FoodsComponent.clearAllSelections`. -/
def clearAllSelections (_ids : Finset Nat) : Finset Nat := ∅

/-! ## Image upload widget (`image-upload.component.ts`) and the image API
facade (`yeh-api.service.ts`) -/

/-- A browser `File` as the widget reads it: `name`, MIME `type`, byte
`size`. -/
structure JsFile where
  name : String := ""
  type : String
  size : Nat
  deriving DecidableEq

/-- A value appended to a `FormData`: either a string or a file part. -/
inductive PartValue where
  | str (s : String)
  | file (f : JsFile)
  deriving DecidableEq

/-- One `formData.append(name, value)` entry. -/
structure FormPart where
  name : String
  value : PartValue
  deriving DecidableEq

/-- A multipart POST issued by `YehApiService`. -/
structure HttpRequest where
  url : String
  parts : List FormPart
  deriving DecidableEq

/-- The optional extras of `YehApiService.uploadNutritionImage`; the
component only ever sets `ingredientsImage`. -/
structure NutritionUploadOptions where
  ingredientsImage : Option JsFile := none
  manufacturer : Option String := none
  parentCompany : Option String := none
  productLine : Option String := none
  userId : Option String := none
  deriving DecidableEq

/-- Path of the nutrition upload endpoint (under the image API base URL). -/
def nutritionUploadPath : String := "/api/image/upload/nutrition"

/-- Path of the product upload endpoint (under the image API base URL). -/
def productUploadPath : String := "/api/image/upload/product"

/-- `YehApiService.uploadNutritionImage` (`yeh-api.service.ts` lines 74-109):
appends `description`, `nutritionImage`, then each truthy option in source
order (an empty option string is falsy and skipped). -/
def uploadNutritionImage (description : String) (nutritionImage : JsFile)
    (options : NutritionUploadOptions) : HttpRequest :=
  let parts := [⟨"description", .str description⟩, ⟨"nutritionImage", .file nutritionImage⟩]
  let parts := match options.ingredientsImage with
    | some f => parts ++ [⟨"ingredientsImage", .file f⟩]
    | none => parts
  let parts := match options.manufacturer with
    | some m => if m = "" then parts else parts ++ [⟨"manufacturer", .str m⟩]
    | none => parts
  let parts := match options.parentCompany with
    | some m => if m = "" then parts else parts ++ [⟨"parentCompany", .str m⟩]
    | none => parts
  let parts := match options.productLine with
    | some m => if m = "" then parts else parts ++ [⟨"productLine", .str m⟩]
    | none => parts
  let parts := match options.userId with
    | some m => if m = "" then parts else parts ++ [⟨"userId", .str m⟩]
    | none => parts
  { url := nutritionUploadPath, parts := parts }

/-- `YehApiService.uploadProductImage` (`yeh-api.service.ts` lines 111-120):
appends `foodId` (stringified) and `image`. -/
def uploadProductImage (foodId : Nat) (image : JsFile) : HttpRequest :=
  { url := productUploadPath
    parts := [⟨"foodId", .str (toString foodId)⟩, ⟨"image", .file image⟩] }

/-- The mutable fields of `ImageUploadComponent` that the embedded
operations read or write.  Previews are data URLs or existing CDN URLs;
preview decoding (`createImagePreview`) is asynchronous, so staging a file
does not synchronously change the preview field. -/
structure UploadState where
  foodId : Option Nat := none
  foodDescription : String := ""
  isUploading : Bool := false
  nutritionImageFile : Option JsFile := none
  productImageFile : Option JsFile := none
  ingredientsImageFile : Option JsFile := none
  isDraggingNutrition : Bool := false
  isDraggingProduct : Bool := false
  isDraggingIngredients : Bool := false
  nutritionImagePreview : Option String := none
  productImagePreview : Option String := none
  ingredientsImagePreview : Option String := none
  deriving DecidableEq

/-- `ImageUploadComponent.validateFile` (`image-upload.component.ts` lines
223-236): first the `image/` content-type check, then the 10 MiB size check
(`file.size > 10 * 1024 * 1024` rejects).  Returns the boolean result and
the snackbar messages shown. -/
def validateFile (f : JsFile) : Bool × List String :=
  if ¬ strStartsWith f.type "image/" then
    (false, ["Please select an image file"])
  else if f.size > 10 * 1024 * 1024 then
    (false, ["File size must be less than 10MB"])
  else (true, [])

/-- `ImageUploadComponent.handleNutritionFile`: stage the file only when
validation passes (the preview update is asynchronous and not modelled as a
synchronous state change). -/
def handleNutritionFile (st : UploadState) (f : JsFile) : UploadState × List String :=
  let v := validateFile f
  if v.1 then ({ st with nutritionImageFile := some f }, v.2) else (st, v.2)

/-- `ImageUploadComponent.handleProductFile`. -/
def handleProductFile (st : UploadState) (f : JsFile) : UploadState × List String :=
  let v := validateFile f
  if v.1 then ({ st with productImageFile := some f }, v.2) else (st, v.2)

/-- `ImageUploadComponent.handleIngredientsFile`. -/
def handleIngredientsFile (st : UploadState) (f : JsFile) : UploadState × List String :=
  let v := validateFile f
  if v.1 then ({ st with ingredientsImageFile := some f }, v.2) else (st, v.2)

/-- `ImageUploadComponent.onNutritionDrop`: resets the hover flag, then
hands the first dropped file (if any) to the nutrition handler. -/
def onNutritionDrop (st : UploadState) (files : List JsFile) : UploadState × List String :=
  let st1 := { st with isDraggingNutrition := false }
  match files with
  | [] => (st1, [])
  | f :: _ => handleNutritionFile st1 f

/-- `ImageUploadComponent.onProductDrop`. -/
def onProductDrop (st : UploadState) (files : List JsFile) : UploadState × List String :=
  let st1 := { st with isDraggingProduct := false }
  match files with
  | [] => (st1, [])
  | f :: _ => handleProductFile st1 f

/-- `ImageUploadComponent.onIngredientsDrop`. -/
def onIngredientsDrop (st : UploadState) (files : List JsFile) : UploadState × List String :=
  let st1 := { st with isDraggingIngredients := false }
  match files with
  | [] => (st1, [])
  | f :: _ => handleIngredientsFile st1 f

/-- `ImageUploadComponent.onNutritionFileSelected`: hands the first chosen
file (if any) to the nutrition handler. -/
def onNutritionFileSelected (st : UploadState) (files : List JsFile) : UploadState × List String :=
  match files with
  | [] => (st, [])
  | f :: _ => handleNutritionFile st f

/-- `ImageUploadComponent.onProductFileSelected`. -/
def onProductFileSelected (st : UploadState) (files : List JsFile) : UploadState × List String :=
  match files with
  | [] => (st, [])
  | f :: _ => handleProductFile st f

/-- `ImageUploadComponent.onIngredientsFileSelected`. -/
def onIngredientsFileSelected (st : UploadState) (files : List JsFile) : UploadState × List String :=
  match files with
  | [] => (st, [])
  | f :: _ => handleIngredientsFile st f

/-- One item of a `ClipboardEvent`.  `file` is the result of `getAsFile()`,
which may be `null`. -/
structure ClipboardItem where
  type : String
  file : Option JsFile := none
  deriving DecidableEq

/-- `ImageUploadComponent.onNutritionPaste`: iterates the clipboard items
and hands every item whose declared type starts with `image/` (and whose
`getAsFile()` is non-null) to the nutrition handler; other items are skipped
silently. -/
def onNutritionPaste (st : UploadState) (items : List ClipboardItem) :
    UploadState × List String :=
  items.foldl
    (fun acc it =>
      if strStartsWith it.type "image/" then
        match it.file with
        | some f =>
          let r := handleNutritionFile acc.1 f
          (r.1, acc.2 ++ r.2)
        | none => acc
      else acc)
    (st, [])

/-- `ImageUploadComponent.onProductPaste`. -/
def onProductPaste (st : UploadState) (items : List ClipboardItem) :
    UploadState × List String :=
  items.foldl
    (fun acc it =>
      if strStartsWith it.type "image/" then
        match it.file with
        | some f =>
          let r := handleProductFile acc.1 f
          (r.1, acc.2 ++ r.2)
        | none => acc
      else acc)
    (st, [])

/-- `ImageUploadComponent.onIngredientsPaste`. -/
def onIngredientsPaste (st : UploadState) (items : List ClipboardItem) :
    UploadState × List String :=
  items.foldl
    (fun acc it =>
      if strStartsWith it.type "image/" then
        match it.file with
        | some f =>
          let r := handleIngredientsFile acc.1 f
          (r.1, acc.2 ++ r.2)
        | none => acc
      else acc)
    (st, [])

/-! ## `uploadImages` (`image-upload.component.ts` lines 284-377) -/

/-- JavaScript truthiness of the `foodId` input (`number | null`): `null`
and `0` are falsy. -/
def jsTruthyId : Option Nat → Bool
  | some n => n ≠ 0
  | none => false

/-- Outcome of one awaited upload call: a resolved response with its
`success` flag, or a thrown error whose message has already gone through the
`error?.error?.message || error?.message || 'Upload failed'` fallback
chain. -/
inductive ReqResult where
  | ok (success : Bool)
  | err (message : String)
  deriving DecidableEq

/-- Events the widget emits to its parent on a successful upload. -/
inductive UploadEvent where
  | imagesUploaded (success nutritionUploaded productUploaded ingredientsUploaded : Bool)
      (message : String) (warnings : List String)
  | refreshFood
  deriving DecidableEq

/-- `ImageUploadComponent.buildUploadMessage`: names the kinds that
succeeded, in the order Nutrition facts, Ingredients, Product, joined with
commas. -/
def buildUploadMessage (nutritionUploaded productUploaded ingredientsUploaded : Bool) :
    String :=
  let uploaded :=
    (if nutritionUploaded then ["Nutrition facts"] else []) ++
    (if ingredientsUploaded then ["Ingredients"] else []) ++
    (if productUploaded then ["Product"] else [])
  match uploaded with
  | [] => "No images were uploaded"
  | [x] => x ++ " image uploaded successfully!"
  | xs => String.intercalate ", " xs ++ " images uploaded successfully!"

/-- Accumulated effect of one of the two independent upload attempts inside
`uploadImages`. -/
structure UploadStep where
  state : UploadState
  requests : List HttpRequest
  warnings : List String
  nutritionUploaded : Bool := false
  productUploaded : Bool := false
  ingredientsUploaded : Bool := false

/-- The nutrition try-block of `uploadImages`: when a nutrition file is
staged and `foodId` is truthy, one request is issued through
`YehApiService.uploadNutritionImage`, bundling a staged ingredients file as
the `ingredientsImage` option.  The component passes the numeric `foodId`
where the service declares its first parameter as the `description` string,
so `FormData` stringifies the id under the `description` key.  On a
response with `success` the nutrition slot is cleared, and the ingredients
slot and its preview are cleared as well when an ingredients file was
bundled; a thrown error only appends a warning. -/
def nutritionStep (st : UploadState) (r : ReqResult) : UploadStep :=
  match st.nutritionImageFile, st.foodId with
  | some nf, some fid =>
    if fid = 0 then { state := st, requests := [], warnings := [] }
    else
      let req := uploadNutritionImage (toString fid) nf
        { ingredientsImage := st.ingredientsImageFile }
      match r with
      | .ok true =>
        let st1 := { st with nutritionImageFile := none }
        if st1.ingredientsImageFile.isSome then
          { state := { st1 with ingredientsImageFile := none, ingredientsImagePreview := none }
            requests := [req]
            warnings := []
            nutritionUploaded := true
            ingredientsUploaded := true }
        else
          { state := st1, requests := [req], warnings := [], nutritionUploaded := true }
      | .ok false => { state := st, requests := [req], warnings := [] }
      | .err m => { state := st, requests := [req], warnings := ["Nutrition image: " ++ m] }
  | _, _ => { state := st, requests := [], warnings := [] }

/-- The product try-block of `uploadImages`: when a product file is staged
and `foodId` is truthy, one request is issued through
`YehApiService.uploadProductImage`; on `success` the product slot is
cleared, and a thrown error only appends a warning. -/
def productStep (st : UploadState) (r : ReqResult) : UploadStep :=
  match st.productImageFile, st.foodId with
  | some pf, some fid =>
    if fid = 0 then { state := st, requests := [], warnings := [] }
    else
      let req := uploadProductImage fid pf
      match r with
      | .ok true =>
        { state := { st with productImageFile := none }
          requests := [req]
          warnings := []
          productUploaded := true }
      | .ok false => { state := st, requests := [req], warnings := [] }
      | .err m => { state := st, requests := [req], warnings := ["Product image: " ++ m] }
  | _, _ => { state := st, requests := [], warnings := [] }

/-- `ImageUploadComponent.uploadImages`, returning the final widget state,
the requests issued, the snackbar messages shown, and the events emitted.
The two early guards show a snackbar and return without any request: all
three slots empty, or any slot staged while `foodId` is falsy.  Otherwise
the nutrition(+ingredients) attempt and the product attempt run
independently; a combined success emits the `imagesUploaded` and
`refreshFood` events, a pure failure shows the joined warnings, and an
attempt-free or warning-free non-success shows nothing.  `isUploading` ends
`false` (set in the `finally` block). -/
def uploadImages (st : UploadState) (nutritionResult productResult : ReqResult) :
    UploadState × List HttpRequest × List String × List UploadEvent :=
  if st.nutritionImageFile = none ∧ st.productImageFile = none ∧
      st.ingredientsImageFile = none then
    (st, [], ["Please select at least one image to upload"], [])
  else if ¬ jsTruthyId st.foodId then
    (st, [], ["No Food ID for image upload"], [])
  else
    let a := nutritionStep st nutritionResult
    let b := productStep a.state productResult
    let warnings := a.warnings ++ b.warnings
    let success := a.nutritionUploaded || b.productUploaded || a.ingredientsUploaded
    let message := buildUploadMessage a.nutritionUploaded b.productUploaded a.ingredientsUploaded
    let finalState := { b.state with isUploading := false }
    let requests := a.requests ++ b.requests
    if success then
      (finalState, requests, [message],
        [UploadEvent.imagesUploaded success a.nutritionUploaded b.productUploaded
            a.ingredientsUploaded message warnings,
          UploadEvent.refreshFood])
    else if warnings ≠ [] then
      (finalState, requests, ["Upload failed: " ++ String.intercalate "; " warnings], [])
    else
      (finalState, requests, [], [])

/-! ## Concrete fixtures and claim-side comparison definitions -/

/-- Modelled from the spec words of C6, for comparison with the code: the
fat row value is the stored per-100g value multiplied by the record's
serving multiplicand when per-serving is active (by 1 otherwise), rounded to
one decimal place. -/
def claimFatValue (perServing : Bool) (fatPer100g multiplicand : ℚ) : ℚ :=
  round1 (fatPer100g * (if perServing then multiplicand else 1))

/-- The spec's worked example record: `totalFatG = 12.34`,
`servingSizeMultiplicand = 0.3`. -/
def fatTestFood : Food :=
  { id := 1
    nutritionFacts := some { totalFatG := some (1234/100) }
    servingSizeMultiplicand := some (3/10) }

/-- A record whose serving multiplicand is present and zero. -/
def zeroMultFood : Food :=
  { id := 2
    nutritionFacts := some { totalFatG := some 10 }
    servingSizeMultiplicand := some 0 }

/-- A staged nutrition-facts photo used by the upload fixtures. -/
def nutritionTestFile : JsFile := { name := "n.jpg", type := "image/jpeg", size := 100 }

/-- A staged ingredients photo used by the upload fixtures. -/
def ingredientsTestFile : JsFile := { name := "i.jpg", type := "image/jpeg", size := 200 }

/-- A staged product photo used by the upload fixtures. -/
def productTestFile : JsFile := { name := "p.jpg", type := "image/jpeg", size := 300 }

/-- Upload widget state with food id 42 and all three slots staged. -/
def uploadBugState : UploadState :=
  { foodId := some 42
    nutritionImageFile := some nutritionTestFile
    ingredientsImageFile := some ingredientsTestFile
    productImageFile := some productTestFile }

/-- Upload widget state with only the ingredients slot staged and a truthy
food id. -/
def onlyIngredientsState : UploadState :=
  { foodId := some 9
    ingredientsImageFile := some { name := "i2.png", type := "image/png", size := 4 } }

/-- Component state with a two-element result list and focus at index 0. -/
def keyNavState : ComponentState :=
  { initialComponentState with foods := [{ id := 1 }, { id := 2 }] }

/-! ## Helper lemmas -/

/-- Evaluate `round1` at a concrete rational from floor bounds. -/
theorem round1_eq_of_bounds (q : ℚ) (z : ℤ) (h1 : (z : ℚ) ≤ q * 10 + 1/2)
    (h2 : q * 10 + 1/2 < z + 1) : round1 q = (z : ℚ) / 10 := by
  unfold round1
  rw [Int.floor_eq_iff.mpr ⟨h1, h2⟩]

/-- Evaluate `jsRound` at a concrete rational from floor bounds. -/
theorem jsRound_eq_of_bounds (q : ℚ) (z : ℤ) (h1 : (z : ℚ) ≤ q + 1/2)
    (h2 : q + 1/2 < z + 1) : jsRound q = (z : ℚ) := by
  unfold jsRound
  rw [Int.floor_eq_iff.mpr ⟨h1, h2⟩]

/-! ## Claim theorems -/

/-- C6 (amended): the nutrient table multiplies each present per-100g source
value by the serving multiplier — the record's `servingSizeMultiplicand`
when per-serving display is active and the multiplicand is present and
non-zero, and `1` otherwise (the code's `|| 1` fallback, captured by
`jsOrOne`) — rounding gram values to one decimal place and calories to the
nearest integer, omitting absent nutrients, in the fixed order Protein,
Fat, Carbs, Calories; and in particular `totalFatG = 12.34` with
`servingSizeMultiplicand = 0.3` yields per-serving fat `3.7` and per-100g
fat `12.3`. -/
theorem getNutrients_characterization :
    (∀ (b : Bool) (f : Food),
      getNutrients b (some f) =
        match f.nutritionFacts with
        | none => []
        | some nf =>
          (nf.proteinG.map fun p =>
            SimplifiedNutrient.mk "Protein"
              (round1 (p * (if b then jsOrOne f.servingSizeMultiplicand else 1))) "g").toList ++
          (nf.totalFatG.map fun v =>
            SimplifiedNutrient.mk "Fat"
              (round1 (v * (if b then jsOrOne f.servingSizeMultiplicand else 1))) "g").toList ++
          (nf.totalCarbohydrateG.map fun v =>
            SimplifiedNutrient.mk "Carbs"
              (round1 (v * (if b then jsOrOne f.servingSizeMultiplicand else 1))) "g").toList ++
          (nf.calories.map fun c =>
            SimplifiedNutrient.mk "Calories"
              (jsRound (c * (if b then jsOrOne f.servingSizeMultiplicand else 1))) "kcal").toList) ∧
    getNutrients true (some fatTestFood) = [⟨"Fat", 37/10, "g"⟩] ∧
    getNutrients false (some fatTestFood) = [⟨"Fat", 123/10, "g"⟩] := by
  have hmul : ¬ ((3:ℚ)/10 = 0) := by norm_num
  have hper : round1 ((1234:ℚ)/100 * (3/10)) = 37/10 := by
    have h := round1_eq_of_bounds ((1234:ℚ)/100 * (3/10)) 37 (by norm_num) (by norm_num)
    rw [h]; norm_num
  have hraw : round1 ((1234:ℚ)/100) = 123/10 := by
    have h := round1_eq_of_bounds ((1234:ℚ)/100) 123 (by norm_num) (by norm_num)
    rw [h]; norm_num
  refine ⟨?_, ?_, ?_⟩
  · intro b f
    cases hnf : f.nutritionFacts with
    | none => simp [getNutrients, hnf]
    | some nf =>
      cases hp : nf.proteinG <;> cases hv : nf.totalFatG <;>
        cases hc : nf.totalCarbohydrateG <;> cases hk : nf.calories <;>
          simp [getNutrients, hnf, hp, hv, hc, hk]
  · simp [getNutrients, fatTestFood, jsOrOne, hmul, hper]
  · simp [getNutrients, fatTestFood, jsOrOne, hraw]

/-- C6 counterexample: for a record whose `servingSizeMultiplicand` is
present and equal to `0`, the code's `|| 1` fallback multiplies by `1`,
while the claim as stated prescribes multiplying by the record's serving
multiplicand `0` (`claimFatValue`), so the displayed per-serving fat `10`
differs from the claimed `0`. -/
theorem getNutrients_zero_multiplicand :
    getNutrients true (some zeroMultFood) = [⟨"Fat", 10, "g"⟩] ∧
    claimFatValue true 10 0 = 0 ∧ (10:ℚ) ≠ 0 := by
  have h10 : round1 (10:ℚ) = 10 := by
    have h := round1_eq_of_bounds ((10:ℚ)) 100 (by norm_num) (by norm_num)
    rw [h]; norm_num
  have h0 : round1 ((10:ℚ) * 0) = 0 := by
    have h := round1_eq_of_bounds ((10:ℚ) * 0) 0 (by norm_num) (by norm_num)
    rw [h]; norm_num
  refine ⟨?_, ?_, by norm_num⟩
  · simp [getNutrients, zeroMultFood, jsOrOne, h10]
  · simpa [claimFatValue] using h0

/-- C7: toggling a record with a valid id twice returns the selected set to
its original membership state, and `selectAll` followed by `clear` yields
the empty set regardless of any intermediate toggles. -/
theorem toggleFoodSelection_involutive_and_clear (ids : Finset Nat) (f : Food)
    (hid : f.id ≠ 0) :
    toggleFoodSelection (toggleFoodSelection ids f) f = ids ∧
    (∀ (ids0 : Finset Nat) (foods ts : List Food),
      clearAllSelections (ts.foldl toggleFoodSelection (selectAllFoods ids0 foods)) = ∅) := by
  constructor
  · by_cases hmem : f.id ∈ ids
    · have h1 : toggleFoodSelection ids f = ids.erase f.id := by
        simp [toggleFoodSelection, hid, hmem]
      rw [h1]
      have h2 : f.id ∉ ids.erase f.id := Finset.not_mem_erase _ _
      simp [toggleFoodSelection, hid, h2, Finset.insert_erase hmem]
    · have h1 : toggleFoodSelection ids f = insert f.id ids := by
        simp [toggleFoodSelection, hid, hmem]
      rw [h1]
      simp [toggleFoodSelection, hid, Finset.mem_insert_self, Finset.erase_insert hmem]
  · intro ids0 foods ts
    rfl

/-- C7 witness: toggling food 5 twice on the empty selection returns the
empty selection. -/
theorem toggleFoodSelection_involutive_witness :
    toggleFoodSelection (toggleFoodSelection ∅ ({ id := 5 } : Food)) ({ id := 5 } : Food) = ∅ :=
  (toggleFoodSelection_involutive_and_clear ∅ ({ id := 5 } : Food) (by decide)).1

/-- C3 (amended): the result-limit field defaults to 50 and `setMaxLimit`
sets it to the `MAX_LIMIT` constant 200, but `performSearch` sends the
field's current value (50 when null) to the backend without applying any
cap, so a manually entered value above 200 is sent unchanged. -/
theorem limit_default_and_uncapped :
    initialComponentState.limitValue = some 50 ∧
    (∀ s : ComponentState, (setMaxLimit s).limitValue = some MAX_LIMIT) ∧
    (∀ (s : ComponentState) (outcome : SearchOutcome) (r : FoodsRequest),
      r ∈ (performSearch s outcome).2.1 → requestLimit r = some (s.limitValue.getD 50)) := by
  refine ⟨rfl, fun s => rfl, ?_⟩
  intro s outcome r hr
  by_cases hg : ¬ (s.yehApproved = some true) ∧ (trimQuery s).length < 2
  · simp [performSearch, hg] at hr
  · by_cases hy : s.yehApproved = some true
    · cases outcome with
      | success raw =>
        simp [performSearch, hg, hy] at hr
        simp [hr, requestLimit]
      | failure e =>
        simp [performSearch, hg, hy] at hr
        simp [hr, requestLimit]
    · have hb : ¬ ((trimQuery s).length < 2) := fun hb => hg ⟨hy, hb⟩
      cases outcome with
      | success raw =>
        simp [performSearch, hg, hy, hb] at hr
        simp [hr, requestLimit]
      | failure e =>
        simp [performSearch, hg, hy, hb] at hr
        simp [hr, requestLimit]

/-- C3 witness: in the initial state the limit field holds 50, and a
completed YEH-approved search carries exactly that default. -/
theorem limit_default_and_uncapped_witness :
    requestLimit (FoodsRequest.yehApproved (some 50)) =
      some ((({ initialComponentState with yehApproved := some true } : ComponentState).limitValue).getD 50) := by
  have hmem : FoodsRequest.yehApproved (some 50) ∈
      (performSearch { initialComponentState with yehApproved := some true }
        (.failure { status := 0 })).2.1 := by
    rw [show (performSearch { initialComponentState with yehApproved := some true }
        (.failure { status := 0 })).2.1 = [FoodsRequest.yehApproved (some 50)] from rfl]
    exact List.mem_singleton.mpr rfl
  exact limit_default_and_uncapped.2.2 _ _ _ hmem

/-- C3 counterexample: with 500 entered in the limit field, a completed
search sends limit 500 to the backend, exceeding the claimed cap of 200. -/
theorem performSearch_sends_limit_above_cap :
    (performSearch { initialComponentState with yehApproved := some true, limitValue := some 500 }
      (.failure { status := 0 })).2.1 = [FoodsRequest.yehApproved (some 500)] ∧
    ¬ ((500:ℚ) ≤ 200) := ⟨rfl, by norm_num⟩

/-- C1 (code-bug evidence): at food id 42 with nutrition, ingredients and
product files staged, `uploadImages` issues exactly one request to the
nutrition endpoint, bundling the ingredients image as a part of that same
request, and one separate product request keyed by `foodId`; but the
nutrition request carries the numeric id under the form-field name
`description` — not `foodId` as the spec states — because the component
passes `this.foodId` into the service parameter declared
`description: string`. -/
theorem uploadImages_nutrition_field_named_description :
    (uploadImages uploadBugState (.ok true) (.ok true)).2.1 =
      [uploadNutritionImage "42" nutritionTestFile { ingredientsImage := some ingredientsTestFile },
        uploadProductImage 42 productTestFile] ∧
    (uploadNutritionImage "42" nutritionTestFile { ingredientsImage := some ingredientsTestFile }).parts =
      [⟨"description", .str "42"⟩, ⟨"nutritionImage", .file nutritionTestFile⟩,
        ⟨"ingredientsImage", .file ingredientsTestFile⟩] ∧
    "foodId" ∉ ((uploadNutritionImage "42" nutritionTestFile
      { ingredientsImage := some ingredientsTestFile }).parts.map FormPart.name) ∧
    (uploadProductImage 42 productTestFile).parts =
      [⟨"foodId", .str "42"⟩, ⟨"image", .file productTestFile⟩] := by
  refine ⟨by decide, rfl, by decide, rfl⟩

/-- C10 (amended): when only the ingredients slot is staged and the food id
is non-null and non-zero (JavaScript-truthy), `uploadImages` issues no
request, shows no notification, emits no events, and leaves the ingredients
file and preview staged unchanged (only the in-flight flag ends false). -/
theorem uploadImages_only_ingredients_noop (st : UploadState) (r1 r2 : ReqResult)
    (hn : st.nutritionImageFile = none) (hp : st.productImageFile = none)
    (hi : st.ingredientsImageFile ≠ none) (hf : jsTruthyId st.foodId = true) :
    uploadImages st r1 r2 = ({ st with isUploading := false }, [], [], []) := by
  cases hfid : st.foodId with
  | none => rw [hfid] at hf; simp [jsTruthyId] at hf
  | some fid =>
    rw [hfid] at hf
    simp [uploadImages, hn, hp, hi, hf, nutritionStep, productStep, hfid]

/-- C10 witness: with ingredients staged, food id 9, and both oracles
succeeding, `uploadImages` is a complete no-op. -/
theorem uploadImages_only_ingredients_noop_witness :
    uploadImages onlyIngredientsState (.ok true) (.ok true) =
      ({ onlyIngredientsState with isUploading := false }, [], [], []) :=
  uploadImages_only_ingredients_noop onlyIngredientsState (.ok true) (.ok true)
    rfl rfl (by decide) rfl

/-- C10 counterexample: with a non-null but zero `foodId` (JavaScript-falsy)
and only the ingredients slot staged, `uploadImages` does show a
notification, contradicting the claim that any non-null `foodId` yields no
notification at all. -/
theorem uploadImages_zero_foodId_notifies :
    uploadImages { onlyIngredientsState with foodId := some 0 } (.ok true) (.ok true) =
      ({ onlyIngredientsState with foodId := some 0 }, [], ["No Food ID for image upload"], []) := by
  decide

/-- Non-image clipboard items are skipped silently by the nutrition paste
handler. -/
theorem onNutritionPaste_skips_nonimage (st : UploadState) :
    ∀ items : List ClipboardItem,
      (∀ it ∈ items, strStartsWith it.type "image/" = false) →
      onNutritionPaste st items = (st, []) := by
  intro items
  induction items with
  | nil => intro _; rfl
  | cons it its ih =>
    intro h
    have h1 := h it (List.mem_cons_self it its)
    have h2 : ∀ x ∈ its, strStartsWith x.type "image/" = false :=
      fun x hx => h x (List.mem_cons_of_mem it hx)
    have step : onNutritionPaste st (it :: its) = onNutritionPaste st its := by
      unfold onNutritionPaste
      rw [List.foldl_cons, if_neg (by rw [h1]; exact Bool.false_ne_true)]
    rw [step]
    exact ih h2

/-- Non-image clipboard items are skipped silently by the product paste
handler. -/
theorem onProductPaste_skips_nonimage (st : UploadState) :
    ∀ items : List ClipboardItem,
      (∀ it ∈ items, strStartsWith it.type "image/" = false) →
      onProductPaste st items = (st, []) := by
  intro items
  induction items with
  | nil => intro _; rfl
  | cons it its ih =>
    intro h
    have h1 := h it (List.mem_cons_self it its)
    have h2 : ∀ x ∈ its, strStartsWith x.type "image/" = false :=
      fun x hx => h x (List.mem_cons_of_mem it hx)
    have step : onProductPaste st (it :: its) = onProductPaste st its := by
      unfold onProductPaste
      rw [List.foldl_cons, if_neg (by rw [h1]; exact Bool.false_ne_true)]
    rw [step]
    exact ih h2

/-- Non-image clipboard items are skipped silently by the ingredients paste
handler. -/
theorem onIngredientsPaste_skips_nonimage (st : UploadState) :
    ∀ items : List ClipboardItem,
      (∀ it ∈ items, strStartsWith it.type "image/" = false) →
      onIngredientsPaste st items = (st, []) := by
  intro items
  induction items with
  | nil => intro _; rfl
  | cons it its ih =>
    intro h
    have h1 := h it (List.mem_cons_self it its)
    have h2 : ∀ x ∈ its, strStartsWith x.type "image/" = false :=
      fun x hx => h x (List.mem_cons_of_mem it hx)
    have step : onIngredientsPaste st (it :: its) = onIngredientsPaste st its := by
      unfold onIngredientsPaste
      rw [List.foldl_cons, if_neg (by rw [h1]; exact Bool.false_ne_true)]
    rw [step]
    exact ih h2

/-- C9 (amended): for the three slot handlers reached from drop and
file-pick, a non-image file or a file above 10 MiB produces exactly one
transient notification and leaves the slot unchanged, and an image-typed
file of at most 10 MiB is staged; a file offered by paste is pre-filtered
by declared type, so non-image clipboard items are skipped silently with no
notification. -/
theorem file_validation_behavior (st : UploadState) (f : JsFile) :
    (strStartsWith f.type "image/" = false →
      handleNutritionFile st f = (st, ["Please select an image file"]) ∧
      handleProductFile st f = (st, ["Please select an image file"]) ∧
      handleIngredientsFile st f = (st, ["Please select an image file"])) ∧
    (strStartsWith f.type "image/" = true → 10 * 1024 * 1024 < f.size →
      handleNutritionFile st f = (st, ["File size must be less than 10MB"]) ∧
      handleProductFile st f = (st, ["File size must be less than 10MB"]) ∧
      handleIngredientsFile st f = (st, ["File size must be less than 10MB"])) ∧
    (strStartsWith f.type "image/" = true → f.size ≤ 10 * 1024 * 1024 →
      handleNutritionFile st f = ({ st with nutritionImageFile := some f }, []) ∧
      handleProductFile st f = ({ st with productImageFile := some f }, []) ∧
      handleIngredientsFile st f = ({ st with ingredientsImageFile := some f }, [])) ∧
    (∀ items : List ClipboardItem,
      (∀ it ∈ items, strStartsWith it.type "image/" = false) →
      onNutritionPaste st items = (st, []) ∧ onProductPaste st items = (st, []) ∧
      onIngredientsPaste st items = (st, [])) := by
  refine ⟨?_, ?_, ?_, fun items h =>
    ⟨onNutritionPaste_skips_nonimage st items h, onProductPaste_skips_nonimage st items h,
      onIngredientsPaste_skips_nonimage st items h⟩⟩
  · intro h
    refine ⟨?_, ?_, ?_⟩ <;>
      simp [handleNutritionFile, handleProductFile, handleIngredientsFile, validateFile, h]
  · intro h hsz
    refine ⟨?_, ?_, ?_⟩ <;>
      simp [handleNutritionFile, handleProductFile, handleIngredientsFile, validateFile, h, hsz]
  · intro h hsz
    have hlt : ¬ (10 * 1024 * 1024 < f.size) := not_lt.mpr hsz
    refine ⟨?_, ?_, ?_⟩ <;>
      simp [handleNutritionFile, handleProductFile, handleIngredientsFile, validateFile, h, hlt]

/-- C9 witness: a 5-byte text/plain file offered to the nutrition slot is
rejected with a notification and the slot stays unchanged. -/
theorem file_validation_behavior_witness :
    handleNutritionFile {} { name := "a.txt", type := "text/plain", size := 5 } =
      ({}, ["Please select an image file"]) :=
  ((file_validation_behavior {} { name := "a.txt", type := "text/plain", size := 5 }).1
    (by decide)).1

/-- C9 counterexample: a text/plain clipboard item offered to the nutrition
slot by paste is filtered out silently — the slot is unchanged and the list
of notifications shown is empty, contradicting the claim that every
non-image file offered by paste produces a transient notification. -/
theorem onNutritionPaste_nonimage_silent :
    onNutritionPaste {}
      [{ type := "text/plain", file := some { name := "clip.txt", type := "text/plain", size := 5 } }] =
      ({}, []) := by
  decide

/-- C2 (amended): after a completed search, the success path auto-focuses
index 0 with the first record (so the focused index is -1 exactly when the
returned-and-filtered set is empty, and the detail pane, metadata form and
nutrient table are cleared when it is); the failure path clears the results,
the focused record, and shows the status-class error message, but leaves
the focused index unchanged. -/
theorem performSearch_focus_invariant (s : ComponentState) (outcome : SearchOutcome)
    (h : s.yehApproved = some true ∨ 2 ≤ (trimQuery s).length) :
    (∀ raw, outcome = SearchOutcome.success raw →
      (((performSearch s outcome).1.selectedIndex = -1 ↔ (performSearch s outcome).1.foods = []) ∧
        ((performSearch s outcome).1.foods ≠ [] →
          (performSearch s outcome).1.selectedIndex = 0 ∧
          (performSearch s outcome).1.selectedFood = (performSearch s outcome).1.foods.head?) ∧
        ((performSearch s outcome).1.foods = [] →
          (performSearch s outcome).1.selectedFood = none ∧
          (performSearch s outcome).1.form = emptyMetadata ∧
          (performSearch s outcome).1.nutrientTable = []))) ∧
    (∀ e, outcome = SearchOutcome.failure e →
      (performSearch s outcome).1.foods = [] ∧
      (performSearch s outcome).1.selectedFood = none ∧
      (performSearch s outcome).1.selectedIndex = s.selectedIndex ∧
      (performSearch s outcome).2.2 = [handleErrorMessage "Failed to search foods" e]) := by
  have hguard : ¬ (¬ (s.yehApproved = some true) ∧ (trimQuery s).length < 2) := by
    rcases h with h | h
    · exact fun hc => hc.1 h
    · exact fun hc => absurd hc.2 (by omega)
  have key : ∀ arr : List Food,
      (((applySearchResults s arr).selectedIndex = -1 ↔ (applySearchResults s arr).foods = []) ∧
        ((applySearchResults s arr).foods ≠ [] →
          (applySearchResults s arr).selectedIndex = 0 ∧
          (applySearchResults s arr).selectedFood = (applySearchResults s arr).foods.head?) ∧
        ((applySearchResults s arr).foods = [] →
          (applySearchResults s arr).selectedFood = none ∧
          (applySearchResults s arr).form = emptyMetadata ∧
          (applySearchResults s arr).nutrientTable = [])) := by
    intro arr
    cases arr with
    | nil => simp [applySearchResults]
    | cons a l => simp [applySearchResults]
  constructor
  · rintro raw rfl
    simp only [performSearch]
    rw [if_neg hguard]
    exact key _
  · rintro e rfl
    simp [performSearch, hguard]

/-- C2 witness: for a completed YEH-approved search that fails with a
network error, the results and the focused record are cleared. -/
theorem performSearch_focus_invariant_witness :
    (performSearch { initialComponentState with yehApproved := some true }
        (.failure { status := 0 })).1.foods = [] ∧
    (performSearch { initialComponentState with yehApproved := some true }
        (.failure { status := 0 })).1.selectedFood = none := by
  have h := performSearch_focus_invariant
    { initialComponentState with yehApproved := some true } (.failure { status := 0 })
    (Or.inl rfl)
  exact ⟨(h.2 { status := 0 } rfl).1, (h.2 { status := 0 } rfl).2.1⟩

/-- C2 counterexample: after a failed search the result set is empty but the
focused index is still 0 (the error path never resets it), so "the focused
index equals -1 exactly when the result set is empty" fails on the error
path. -/
theorem performSearch_error_keeps_selectedIndex :
    (performSearch { initialComponentState with yehApproved := some true }
        (.failure { status := 500 })).1.foods = [] ∧
    (performSearch { initialComponentState with yehApproved := some true }
        (.failure { status := 500 })).1.selectedIndex = 0 ∧
    ((0 : Int) ≠ -1) := by
  exact ⟨rfl, rfl, by decide⟩

/-- C4: with a focused record that has a valid id, `saveMetadata` issues a
network call exactly when at least one of the three fields differs from its
snapshot; an all-unchanged save yields the "No changes to save" notification
and no call, and the partial-update object contains exactly the fields that
differ. -/
theorem saveMetadata_network_iff_changed (f : Food) (form orig : MetadataState)
    (hid : f.id ≠ 0) :
    ((∃ u, saveMetadata (some f) form orig = SaveResult.network f.id u) ↔
      (form.shortDescription ≠ orig.shortDescription ∨
        form.glycemicIndex ≠ orig.glycemicIndex ∨
        form.glycemicLoad ≠ orig.glycemicLoad)) ∧
    ((form.shortDescription = orig.shortDescription ∧
        form.glycemicIndex = orig.glycemicIndex ∧
        form.glycemicLoad = orig.glycemicLoad) →
      saveMetadata (some f) form orig = SaveResult.noChanges "No changes to save") ∧
    (∀ u, saveMetadata (some f) form orig = SaveResult.network f.id u →
      ((u.shortDescription ≠ none ↔ form.shortDescription ≠ orig.shortDescription) ∧
        (u.glycemicIndex ≠ none ↔ form.glycemicIndex ≠ orig.glycemicIndex) ∧
        (u.glycemicLoad ≠ none ↔ form.glycemicLoad ≠ orig.glycemicLoad))) := by
  by_cases h1 : form.shortDescription = orig.shortDescription <;>
    by_cases h2 : form.glycemicIndex = orig.glycemicIndex <;>
      by_cases h3 : form.glycemicLoad = orig.glycemicLoad <;>
        simp [saveMetadata, hid, h1, h2, h3]

/-- C4 witness: changing only the short description of food 7 issues a
network call. -/
theorem saveMetadata_network_iff_changed_witness :
    ∃ u, saveMetadata (some ({ id := 7 } : Food)) ⟨some "x", none, none⟩ emptyMetadata =
      SaveResult.network 7 u :=
  (saveMetadata_network_iff_changed ({ id := 7 } : Food) ⟨some "x", none, none⟩ emptyMetadata
    (by decide)).1.mpr (Or.inl (by simp [emptyMetadata]))

/-- C5: when the current short-description form value is the empty string
and differs from the snapshot, the partial update sent by `saveMetadata`
sets `shortDescription` to an explicit null (`some none`), never to the
empty string. -/
theorem saveMetadata_empty_string_sends_null (f : Food) (form orig : MetadataState)
    (hid : f.id ≠ 0) (hsd : form.shortDescription = some "")
    (horig : orig.shortDescription ≠ some "") :
    ∃ u, saveMetadata (some f) form orig = SaveResult.network f.id u ∧
      u.shortDescription = some none := by
  have hne : ¬ (some "" = orig.shortDescription) := fun hc => horig hc.symm
  simp [saveMetadata, hid, hne, hsd]

/-- C5 witness: clearing the short description of food 3 from "old" to the
empty string sends an explicit null. -/
theorem saveMetadata_empty_string_sends_null_witness :
    ∃ u, saveMetadata (some ({ id := 3 } : Food)) ⟨some "", none, none⟩ ⟨some "old", none, none⟩ =
      SaveResult.network 3 u ∧ u.shortDescription = some none :=
  saveMetadata_empty_string_sends_null ({ id := 3 } : Food) ⟨some "", none, none⟩
    ⟨some "old", none, none⟩ (by decide) rfl (by decide)

/-- C8: with a non-empty result list and the focused index in range,
ArrowDown and ArrowUp move the focus by exactly +1 and -1, clamped to
`[0, length - 1]` with no wraparound: ArrowUp at index 0 and ArrowDown at
the last index leave the whole state unchanged. -/
theorem onListKeydown_clamped (s : ComponentState)
    (h0 : 0 ≤ s.selectedIndex) (h1 : s.selectedIndex < (s.foods.length : Int)) :
    ((onListKeydown s "ArrowDown").selectedIndex =
        min (s.selectedIndex + 1) ((s.foods.length : Int) - 1)) ∧
    ((onListKeydown s "ArrowUp").selectedIndex = max (s.selectedIndex - 1) 0) ∧
    (s.selectedIndex = 0 → onListKeydown s "ArrowUp" = s) ∧
    (s.selectedIndex = (s.foods.length : Int) - 1 → onListKeydown s "ArrowDown" = s) := by
  have hud : ("ArrowUp" : String) ≠ "ArrowDown" := by decide
  refine ⟨?_, ?_, ?_, ?_⟩
  · by_cases hL : s.selectedIndex = (s.foods.length : Int) - 1
    · have hmin : min (s.selectedIndex + 1) ((s.foods.length : Int) - 1) = s.selectedIndex := by
        omega
      simp [onListKeydown, hmin]
    · have hmin : min (s.selectedIndex + 1) ((s.foods.length : Int) - 1) = s.selectedIndex + 1 := by
        omega
      have hne : ¬ (s.selectedIndex + 1 = s.selectedIndex) := by omega
      have hc1 : (0:Int) ≤ s.selectedIndex + 1 := by omega
      have hc2 : s.selectedIndex + 1 < (s.foods.length : Int) := by omega
      have hnat : (s.selectedIndex + 1).toNat < s.foods.length := by omega
      simp [onListKeydown, hmin, hne, onFoodSelected, hc1, hc2, List.getElem?_eq_getElem hnat]
  · by_cases h00 : s.selectedIndex = 0
    · have hmax : max (s.selectedIndex - 1) 0 = s.selectedIndex := by omega
      simp [onListKeydown, hud, hmax]
    · have hmax : max (s.selectedIndex - 1) 0 = s.selectedIndex - 1 := by omega
      have hne : ¬ (s.selectedIndex - 1 = s.selectedIndex) := by omega
      have hc1 : (0:Int) ≤ s.selectedIndex - 1 := by omega
      have hc2 : s.selectedIndex - 1 < (s.foods.length : Int) := by omega
      have hnat : (s.selectedIndex - 1).toNat < s.foods.length := by omega
      have hnat2 : s.selectedIndex.toNat - 1 < s.foods.length := by omega
      simp [onListKeydown, hud, hmax, hne, onFoodSelected, hc1, hc2,
        List.getElem?_eq_getElem hnat, List.getElem?_eq_getElem hnat2]
  · intro h00
    have hmax : max (s.selectedIndex - 1) 0 = s.selectedIndex := by omega
    simp [onListKeydown, hud, hmax]
  · intro hL
    have hmin : min (s.selectedIndex + 1) ((s.foods.length : Int) - 1) = s.selectedIndex := by omega
    simp [onListKeydown, hmin]

/-- C8 witness: on a two-element list focused at index 0, ArrowDown moves to
the clamped index 1, ArrowUp stays clamped at 0, and ArrowUp at index 0 is
a complete no-op. -/
theorem onListKeydown_clamped_witness :
    ((onListKeydown keyNavState "ArrowDown").selectedIndex =
        min (keyNavState.selectedIndex + 1) ((keyNavState.foods.length : Int) - 1)) ∧
    ((onListKeydown keyNavState "ArrowUp").selectedIndex =
        max (keyNavState.selectedIndex - 1) 0) ∧
    (keyNavState.selectedIndex = 0 → onListKeydown keyNavState "ArrowUp" = keyNavState) ∧
    (keyNavState.selectedIndex = (keyNavState.foods.length : Int) - 1 →
      onListKeydown keyNavState "ArrowDown" = keyNavState) :=
  onListKeydown_clamped keyNavState (by decide) (by decide)

end FoodsTool
